import Mathlib

/-!
Shallow embedding of the RTS game engine of this repository
(src/services/GameEngine.ts, src/App.tsx, src/constants.ts, src/types.ts)
and proofs about its per-tick behaviour.

Modelling conventions, used throughout:
* JS numbers that only ever hold integers (credits, hit points, cooldowns,
  cargo, power, tick counters) are embedded as `Int`; world coordinates are
  embedded as `Rat` (the source only adds, subtracts, multiplies, divides and
  floors them in the fragments modelled here).
* The source's `dist` computes `Math.sqrt(dx*dx + dy*dy)` and every use in the
  engine compares the result against a nonnegative threshold or another
  distance; square root is strictly monotone on nonnegatives, so those
  comparisons are embedded as comparisons of squared distances (`distSq`),
  keeping every guard executable over `Rat`.  The projectile phase, whose
  update genuinely divides by the square root, is embedded separately over
  `Real` (`RVec` below).
* Mutable object references (`u.targetUnit`, a projectile's `target`) are
  flattened: functions that read or write the reference take and return it as
  an explicit `Option Entity` value.
* The cosmetic fields `id` (a random string) and `turretAngle` (an `atan2`
  facing angle) and the particle effects are omitted: no modelled claim reads
  them.
-/

namespace RTS

/-- src/types.ts `EntityType`: the closed catalog of entity types.  Each enum
member's runtime value is its own name as a string. -/
inductive EntityType where
  | CONSTRUCTION_YARD
  | POWER_PLANT
  | REFINERY
  | BARRACKS
  | FACTORY
  | CANNON
  | INFANTRY
  | TANK
  | HARVESTER
  | ORE
deriving DecidableEq

/-- The `team` field: `'player' | 'enemy'`. -/
inductive Team where
  | player
  | enemy
deriving DecidableEq

/-- The `harvestState` field of src/types.ts `Entity`. -/
inductive HarvestState where
  | idle
  | moving_to_ore
  | harvesting
  | returning
deriving DecidableEq

/-- src/types.ts `TypeDefinition`: immutable per-type catalog data.  Optional
fields of the interface are `Option`s. -/
structure TypeDefinition where
  w : Rat
  h : Rat
  hp : Int
  cost : Int
  power : Int
  speed : Option Rat := none
  range : Option Rat := none
  damage : Option Int := none
  fireRate : Option Int := none
  buildTime : Option Int := none
  radius : Option Rat := none
  capacity : Option Int := none
deriving DecidableEq

/-- src/constants.ts `TILE_SIZE`. -/
def TILE_SIZE : Rat := 40

/-- src/constants.ts `DEFINITIONS`: the static catalog, value for value. -/
def DEFINITIONS : EntityType → TypeDefinition
  | .CONSTRUCTION_YARD => { w := 3, h := 3, hp := 5000, cost := 0, power := 20 }
  | .POWER_PLANT => { w := 2, h := 2, hp := 800, cost := 300, power := 50 }
  | .REFINERY => { w := 3, h := 2, hp := 1500, cost := 1500, power := -30 }
  | .BARRACKS => { w := 2, h := 2, hp := 1000, cost := 600, power := -10 }
  | .FACTORY => { w := 3, h := 3, hp := 2000, cost := 2000, power := -40 }
  | .CANNON => { w := 1, h := 1, hp := 800, cost := 800, power := -20,
                 range := some 250, damage := some 40, fireRate := some 60 }
  | .INFANTRY => { w := 1/2, h := 1/2, hp := 80, cost := 100, power := 0,
                   speed := some (3/10), damage := some 5, range := some 120,
                   fireRate := some 20, radius := some 6, buildTime := some 2000 }
  | .TANK => { w := 1, h := 1, hp := 400, cost := 800, power := 0,
               speed := some (1/2), damage := some 35, range := some 180,
               fireRate := some 90, radius := some 16, buildTime := some 5000 }
  | .HARVESTER => { w := 1, h := 1, hp := 600, cost := 1000, power := 0,
                    speed := some (2/5), damage := some 0, range := some 0,
                    fireRate := some 0, radius := some 16, buildTime := some 4000,
                    capacity := some 500 }
  | .ORE => { w := 1, h := 1, hp := 100, cost := 0, power := 0 }

/-- src/types.ts `Vector`, over `Rat` (see the header comment). -/
structure Vec where
  x : Rat
  y : Rat
deriving DecidableEq

/-- Squared Euclidean distance.  `GameEngine.dist` returns
`Math.sqrt((x1-x2)^2 + (y1-y2)^2)`; comparisons of its result against
nonnegative bounds are embedded via this square (see header comment). -/
def distSq (a b : Vec) : Rat := (a.x - b.x) ^ 2 + (a.y - b.y) ^ 2

/-- `dist a b < c` of the source, for a nonnegative literal threshold `c`,
embedded as the order-equivalent squared comparison. -/
def distLt (a b : Vec) (c : Rat) : Bool := distSq a b < c ^ 2

/-- `dist a b <= c` of the source, for a nonnegative threshold `c`. -/
def distLe (a b : Vec) (c : Rat) : Bool := distSq a b ≤ c ^ 2

/-- src/types.ts `Entity` (see header comment for the omitted cosmetic
fields; `targetUnit` is flattened into function arguments). -/
structure Entity where
  pos : Vec
  type : EntityType
  team : Team
  hp : Int
  maxHp : Int
  dead : Bool
  radius : Rat
  cargo : Int
  harvestState : HarvestState
  cooldown : Int
  selected : Bool
  targetPos : Option Vec
deriving DecidableEq

/-- src/types.ts `OrePatch`. -/
structure OrePatch where
  pos : Vec
  amount : Int
deriving DecidableEq

/-- The array literal in `createEntity`'s grid-snap test:
`[CONSTRUCTION_YARD, POWER_PLANT, REFINERY, BARRACKS, FACTORY]`. -/
def buildingSnapList : List EntityType :=
  [.CONSTRUCTION_YARD, .POWER_PLANT, .REFINERY, .BARRACKS, .FACTORY]

/-- The runtime string value of each enum member (src/types.ts assigns each
member its own name). -/
def enumValue : EntityType → String
  | .CONSTRUCTION_YARD => "CONSTRUCTION_YARD"
  | .POWER_PLANT => "POWER_PLANT"
  | .REFINERY => "REFINERY"
  | .BARRACKS => "BARRACKS"
  | .FACTORY => "FACTORY"
  | .CANNON => "CANNON"
  | .INFANTRY => "INFANTRY"
  | .TANK => "TANK"
  | .HARVESTER => "HARVESTER"
  | .ORE => "ORE"

/-- JavaScript's `key in arr` for an array `arr` of length `len` tests whether
`key` is a property KEY of the array object — the index strings `"0"` ..
`toString (len-1)` plus `"length"` (and inherited method names, none of which
collide with the all-caps enum values used here) — not whether `key` occurs
among the array's VALUES.  `createEntity`'s snap guard uses `in`, so the
guard compares the entity-type string against these keys. -/
def jsInArray (key : String) (len : Nat) : Bool :=
  ((List.range len).map toString ++ ["length"]).contains key

/-- `GameEngine.createEntity` (lines 98-125).  The snap guard is the source's
`type in [CONSTRUCTION_YARD, ...]`, embedded with JavaScript's `in` semantics
(`jsInArray`). -/
def createEntity (x y : Rat) (t : EntityType) (team : Team) : Entity :=
  let d := DEFINITIONS t
  let snap := jsInArray (enumValue t) buildingSnapList.length
  let posX := if snap then (⌊x / TILE_SIZE⌋ : Rat) * TILE_SIZE + d.w * TILE_SIZE / 2 else x
  let posY := if snap then (⌊y / TILE_SIZE⌋ : Rat) * TILE_SIZE + d.h * TILE_SIZE / 2 else y
  { pos := ⟨posX, posY⟩
    type := t
    team := team
    hp := d.hp
    maxHp := d.hp
    dead := false
    radius := d.radius.getD (max d.w d.h * TILE_SIZE / 2)
    cargo := 0
    harvestState := .idle
    cooldown := 0
    selected := false
    targetPos := none }

/-- The grid-snapped building position as the spec words it: the cell-aligned
origin of the containing tile plus half the type's footprint in tiles.  This
is the position the snap branch of `createEntity` would compute; it is stated
separately so the code's actual result can be compared against it. -/
def specSnapPos (x y : Rat) (t : EntityType) : Vec :=
  let d := DEFINITIONS t
  ⟨(⌊x / TILE_SIZE⌋ : Rat) * TILE_SIZE + d.w * TILE_SIZE / 2,
   (⌊y / TILE_SIZE⌋ : Rat) * TILE_SIZE + d.h * TILE_SIZE / 2⟩

/-- The win/loss lookup predicate of `update` phase 7:
`b.type === CONSTRUCTION_YARD && b.team === 'player'`. -/
def isPlayerHQ (b : Entity) : Bool :=
  b.type == EntityType.CONSTRUCTION_YARD && b.team == Team.player

/-- `update` phase 5 restricted to buildings:
`this.buildings = this.buildings.filter(b => !b.dead)`. -/
def sweepBuildings (bs : List Entity) : List Entity :=
  bs.filter (fun b => !b.dead)

/-- `update` phase 7 (lines 484-486): the mission-failed callback is invoked
whenever the (already swept) buildings collection holds no player
construction yard — there is no guard recording an earlier invocation. -/
def gameOverFires (bs : List Entity) : Bool :=
  (bs.find? isPlayerHQ).isNone

/-- Phases 5-7 of one `update` call as they act on the buildings collection:
earlier phases only set `dead` flags on buildings (never insert), the sweep
removes the flagged ones, and the win/loss check then runs on the swept
collection.  Returns the collection after the tick and whether `onGameOver`
was invoked on this tick. -/
def buildingsTick (bs : List Entity) : List Entity × Bool :=
  let swept := sweepBuildings bs
  (swept, gameOverFires swept)

/-- The keys of `productionQueues`. -/
inductive QueueKey where
  | barracks
  | factory
deriving DecidableEq

/-- One `productionQueues` entry: `{ type, progress, total }`. -/
structure Queue where
  qtype : EntityType
  progress : Int
  total : Int
deriving DecidableEq

/-- The spawner class looked up on completion:
`key === 'barracks' ? BARRACKS : FACTORY`. -/
def spawnerType : QueueKey → EntityType
  | .barracks => EntityType.BARRACKS
  | .factory => EntityType.FACTORY

/-- `update` phase 1 (lines 331-350) for one queue key.  The whole phase is
wrapped in `if (this.power >= 0)`; an occupied queue gains 16 progress; on
reaching its total, a live player building of the matching class is looked
up, the produced unit is pushed only when one is found, and the slot is
cleared either way.  Returns the new slot and the list of units spawned. -/
def productionStep (power : Int) (buildings : List Entity) (key : QueueKey)
    (q : Option Queue) : Option Queue × List Entity :=
  if power < 0 then (q, [])
  else
    match q with
    | none => (none, [])
    | some queue =>
      let progress := queue.progress + 16
      if queue.total ≤ progress then
        match buildings.find? (fun b =>
            b.type == spawnerType key && b.team == Team.player) with
        | some spawner =>
          (none, [createEntity spawner.pos.x (spawner.pos.y + 50) queue.qtype Team.player])
        | none => (none, [])
      else (some { queue with progress := progress }, [])

/-- An axis-aligned rectangle as used by the placement overlap test. -/
structure Rect where
  x : Rat
  y : Rat
  w : Rat
  h : Rat
deriving DecidableEq

/-- The axis-aligned overlap test inside `tryPlaceBuilding` (lines 261-262). -/
def rectOverlap (a b : Rect) : Bool :=
  a.x < b.x + b.w && b.x < a.x + a.w && a.y < b.y + b.h && b.y < a.y + a.h

/-- The footprint rectangle of an existing building (lines 255-260). -/
def buildingRect (b : Entity) : Rect :=
  let d := DEFINITIONS b.type
  ⟨b.pos.x - d.w * TILE_SIZE / 2, b.pos.y - d.h * TILE_SIZE / 2,
   d.w * TILE_SIZE, d.h * TILE_SIZE⟩

/-- The engine fields read and written by `tryPlaceBuilding`. -/
structure EngineState where
  credits : Int
  power : Int
  buildings : List Entity
  units : List Entity
  buildMode : Option EntityType
deriving DecidableEq

/-- `GameEngine.calculatePower` (lines 286-296): generation and consumption
of player buildings are accumulated separately, then combined. -/
def calculatePower (bs : List Entity) : Int :=
  let acc := (bs.filter (fun b => b.team == Team.player)).foldl
    (fun (pc : Int × Int) b =>
      let p := (DEFINITIONS b.type).power
      if 0 < p then (pc.1 + p, pc.2) else (pc.1, pc.2 + |p|))
    (0, 0)
  acc.1 - acc.2

/-- `GameEngine.tryPlaceBuilding` (lines 237-280).  Returns the new engine
state and the notification emitted, if any.  Note the insufficient-funds
branch (line 240) returns with NO notification; only the collision branch
emits one. -/
def tryPlaceBuilding (s : EngineState) (worldMouse : Vec) : EngineState × Option String :=
  match s.buildMode with
  | none => (s, none)
  | some mode =>
    let d := DEFINITIONS mode
    if s.credits < d.cost then (s, none)
    else
      let gx : Int := ⌊worldMouse.x / TILE_SIZE⌋
      let gy : Int := ⌊worldMouse.y / TILE_SIZE⌋
      let checkRect : Rect :=
        ⟨(gx : Rat) * TILE_SIZE, (gy : Rat) * TILE_SIZE, d.w * TILE_SIZE, d.h * TILE_SIZE⟩
      if s.buildings.any (fun b => rectOverlap checkRect (buildingRect b)) then
        (s, some "Cannot build here!")
      else
        let b := createEntity (checkRect.x + checkRect.w / 2) (checkRect.y + checkRect.h / 2)
          mode Team.player
        let buildings := s.buildings ++ [b]
        let units :=
          if mode == EntityType.REFINERY then
            s.units ++ [createEntity b.pos.x (b.pos.y + 60) EntityType.HARVESTER Team.player]
          else s.units
        ({ credits := s.credits - d.cost
           power := calculatePower buildings
           buildings := buildings
           units := units
           buildMode := none }, none)

/-- src/App.tsx `queueUnit` (lines 106-131).  `hasBuilding` mirrors the
React-side `hasBuildings[buildingKey]` flag.  Returns the new credits, the
new queue slot and the notification, if any. -/
def queueUnit (credits : Int) (q : Option Queue) (hasBuilding : Bool)
    (t : EntityType) : Int × Option Queue × Option String :=
  let d := DEFINITIONS t
  if credits < d.cost then (credits, q, some "Insufficient Funds")
  else if q.isSome then (credits, q, some "Production Busy")
  else if !hasBuilding then (credits, q, some "Building Required")
  else (credits - d.cost, some ⟨t, 0, d.buildTime.getD 1000⟩, none)

/-- The refinery lookup of `updateHarvester` (line 503). -/
def isPlayerRefinery (b : Entity) : Bool :=
  b.type == EntityType.REFINERY && b.team == Team.player

/-- The engine fields in scope inside `updateHarvester` via `this`.  `power`
is carried so that its (non-)influence on the harvester can be stated. -/
structure HarvCtx where
  power : Int
  tick : Int
  buildings : List Entity
  orePatches : List OrePatch
deriving DecidableEq

/-- `GameEngine.updateHarvester` (lines 497-531), acting on one harvester and
the credits counter.  Returns the updated harvester, the new credits, and
the deposit notification, if any. -/
def updateHarvester (ctx : HarvCtx) (credits : Int) (u : Entity) :
    Entity × Int × Option String :=
  let cap : Int := (DEFINITIONS EntityType.HARVESTER).capacity.getD 500
  if cap ≤ u.cargo then
    let u1 : Entity := { u with harvestState := .returning }
    match ctx.buildings.find? isPlayerRefinery with
    | some refinery =>
      let u2 : Entity := { u1 with targetPos := some refinery.pos }
      if distLt u2.pos refinery.pos 60 then
        ({ u2 with cargo := 0, harvestState := .idle }, credits + u2.cargo,
         some ("+" ++ toString u2.cargo ++ " Credits"))
      else (u2, credits, none)
    | none => (u1, credits, none)
  else if u.harvestState == .idle || u.harvestState == .moving_to_ore then
    match ctx.orePatches.head? with
    | some ore =>
      let u1 : Entity := { u with targetPos := some ore.pos, harvestState := .moving_to_ore }
      if distLt u1.pos ore.pos 30 then
        ({ u1 with harvestState := .harvesting, targetPos := none }, credits, none)
      else (u1, credits, none)
    | none => (u, credits, none)
  else if u.harvestState == .harvesting then
    if ctx.tick % 10 == 0 then
      let u1 : Entity := { u with cargo := u.cargo + 10 }
      if cap ≤ u1.cargo then ({ u1 with harvestState := .returning }, credits, none)
      else (u1, credits, none)
    else (u, credits, none)
  else (u, credits, none)

/-- The per-selected-unit effect of `issueCommand` (lines 200-215), with the
clicked target resolved beforehand and the unit's current `targetUnit`
passed explicitly (references are flattened, see header).  Returns the
updated unit and its new `targetUnit`. -/
def issueCommandUnit (clickTarget : Option Entity) (worldMouse : Vec)
    (u : Entity) (uTarget : Option Entity) : Entity × Option Entity :=
  if u.selected && u.team == Team.player then
    match clickTarget with
    | some t => ({ u with targetPos := none }, some t)
    | none =>
      ({ u with
          targetPos := some worldMouse
          harvestState :=
            if u.type == EntityType.HARVESTER then HarvestState.idle
            else u.harvestState }, none)
  else (u, uTarget)

/-- The click-target resolution of `issueCommand` (lines 189-198): an enemy
unit within 20 of the click, else an enemy building within 40. -/
def issueCommandTarget (units buildings : List Entity) (worldMouse : Vec) :
    Option Entity :=
  match units.find? (fun u => u.team == Team.enemy && distLt u.pos worldMouse 20) with
  | some e => some e
  | none => buildings.find? (fun b => b.team == Team.enemy && distLt b.pos worldMouse 40)

/-- A fired projectile (`fireProjectile`, lines 489-495): start position,
the target (reference flattened to its value at fire time) and the damage
payload. -/
structure Projectile where
  pos : Vec
  target : Entity
  damage : Int
deriving DecidableEq

/-- `GameEngine.fireProjectile`. -/
def fireProjectile (source target : Entity) (damage : Int) : Projectile :=
  ⟨source.pos, target, damage⟩

/-- `GameEngine.getNearestEnemy` (lines 298-318): a running-minimum scan of
live enemy units, falling back to live enemy buildings when no unit was
found; the running minimum starts at `range`.  Distance comparisons are
embedded squared (header comment).  The accumulator is
`(nearest, minDstSq)`. -/
def nearestScan (pos : Vec) (candidates : List Entity)
    (start : Option Entity × Rat) : Option Entity × Rat :=
  candidates.foldl
    (fun acc e =>
      if e.team == Team.enemy && !e.dead then
        let dSq := distSq pos e.pos
        if dSq < acc.2 then (some e, dSq) else acc
      else acc)
    start

/-- `GameEngine.getNearestEnemy`. -/
def getNearestEnemy (units buildings : List Entity) (pos : Vec) (range : Rat) :
    Option Entity :=
  let fromUnits := nearestScan pos units (none, range ^ 2)
  match fromUnits.1 with
  | some e => some e
  | none => (nearestScan pos buildings (none, range ^ 2)).1

/-- `update` phase 2 (lines 352-369) for one building: player cannons return
immediately while the power balance is negative; otherwise a positive
cooldown is decremented, else the nearest enemy in cannon range is engaged
(cooldown reset to the cannon's fire rate, projectile spawned).  Returns the
updated building and the projectile fired, if any.  (The cosmetic
`turretAngle` rotation is omitted, see header.) -/
def cannonStep (power : Int) (units buildings : List Entity) (b : Entity) :
    Entity × Option Projectile :=
  if b.team == Team.player && b.type == EntityType.CANNON then
    if power < 0 then (b, none)
    else if 0 < b.cooldown then ({ b with cooldown := b.cooldown - 1 }, none)
    else
      let d := DEFINITIONS EntityType.CANNON
      match getNearestEnemy units buildings b.pos (d.range.getD 0) with
      | some target =>
        ({ b with cooldown := d.fireRate.getD 0 },
         some (fireProjectile b target (d.damage.getD 0)))
      | none => (b, none)
  else (b, none)

/-- Line 417 of `update`: `if (u.cooldown > 0) u.cooldown--`.  This runs
every tick for every unit, after the firing branch. -/
def cooldownDecay (u : Entity) : Entity :=
  if 0 < u.cooldown then { u with cooldown := u.cooldown - 1 } else u

/-- The movement-and-attack block of `update` phase 3 (lines 394-417) for one
unit, with the unit's `targetUnit` passed explicitly.  A dead target is
cleared; a live target in range suppresses movement and is fired at once the
cooldown has elapsed (cooldown reset to the type's fire rate — every unit
type the engine spawns defines one); a live target out of range becomes the
movement goal.  The tick's unconditional guarded cooldown decrement
(line 417) runs after the branch.  `power` is in scope via `this` but the
block never reads it.  Returns the updated unit, the surviving target, the
projectile fired (if any) and the effective movement goal of the tick. -/
def unitCombat (power : Int) (u : Entity) (uTarget : Option Entity) :
    Entity × Option Entity × Option Projectile × Option Vec :=
  let d := DEFINITIONS u.type
  let result : Entity × Option Entity × Option Projectile × Option Vec :=
    match uTarget with
    | none => (u, none, none, u.targetPos)
    | some t =>
      if t.dead then (u, none, none, u.targetPos)
      else if distLe u.pos t.pos (d.range.getD 0) then
        if u.cooldown ≤ 0 then
          ({ u with cooldown := d.fireRate.getD 0 }, some t,
           some (fireProjectile u t (d.damage.getD 0)), none)
        else (u, some t, none, none)
      else (u, some t, none, some t.pos)
  (cooldownDecay result.1, result.2.1, result.2.2.1, result.2.2.2)

/-- The impact branch of `update` phase 4 (lines 453-456): the payload is
subtracted from the target's hit points and the target is marked dead when
they drop to zero or below. -/
def applyImpact (damage : Int) (t : Entity) : Entity :=
  let t1 : Entity := { t with hp := t.hp - damage }
  if t1.hp ≤ 0 then { t1 with dead := true } else t1

/-- src/types.ts `Vector` over `Real`, for the two code fragments that
genuinely divide by a computed square root (projectile travel and unit
movement). -/
structure RVec where
  x : Real
  y : Real

/-- `GameEngine.dist` over `Real`: `Math.sqrt(dx*dx + dy*dy)`. -/
noncomputable def rdist (a b : RVec) : Real :=
  Real.sqrt ((a.x - b.x) ^ 2 + (a.y - b.y) ^ 2)

/-- `update` phase 4 (lines 447-462) for one projectile, against the
target's current position `tgt` (the target moved earlier in the same tick):
`none` means the distance dropped below the impact threshold 10 and the
projectile was removed this tick; otherwise it advances 10 toward `tgt`. -/
noncomputable def projTick (p tgt : RVec) : Option RVec :=
  let dx := tgt.x - p.x
  let dy := tgt.y - p.y
  let d := Real.sqrt (dx ^ 2 + dy ^ 2)
  if d < 10 then none
  else some ⟨p.x + dx / d * 10, p.y + dy / d * 10⟩

/-- The projectile's position over successive ticks: `tgt n` is the target's
position on tick `n` (after the tick's unit-movement phase), `p0` the spawn
position.  `none` once the projectile has impacted and been removed. -/
noncomputable def projRun (tgt : Nat → RVec) (p0 : RVec) : Nat → Option RVec
  | 0 => some p0
  | n + 1 =>
    match projRun tgt p0 n with
    | none => none
    | some p => projTick p (tgt (n + 1))

/-- The repulsion accumulation of the movement block (lines 427-436): every
other unit within 20 contributes its displacement from the mover. -/
noncomputable def repulsionVec (pos : RVec) (others : List RVec) : RVec :=
  others.foldl
    (fun acc o =>
      if rdist pos o < 20 then ⟨acc.x + (pos.x - o.x), acc.y + (pos.y - o.y)⟩
      else acc)
    ⟨0, 0⟩

/-- The displacement block of `update` phase 3 (lines 419-443) for one unit:
while farther than one step from the goal, the unit advances `speed` toward
it plus 5% of the repulsion vector; otherwise it stops (and the source
clears `targetPos` when no `targetUnit` is held — reported as the returned
flag).  `power` is in scope via `this` but the block never reads it. -/
noncomputable def unitMove (power : Int) (pos : RVec) (speed : Real)
    (others : List RVec) (moveTarget : Option RVec) : RVec × Bool :=
  match moveTarget with
  | none => (pos, false)
  | some m =>
    let dx := m.x - pos.x
    let dy := m.y - pos.y
    let d := Real.sqrt (dx ^ 2 + dy ^ 2)
    if speed < d then
      let r := repulsionVec pos others
      (⟨pos.x + dx / d * speed + r.x * 0.05, pos.y + dy / d * speed + r.y * 0.05⟩, false)
    else (pos, true)

/-! ### Helper lemmas -/

lemma gameOverFires_iff (bs : List Entity) :
    gameOverFires bs = true ↔ ∀ b ∈ bs, isPlayerHQ b = false := by
  simp only [gameOverFires, Option.isNone_iff_eq_none, List.find?_eq_none,
    Bool.not_eq_true]

lemma buildingsTick_fst (bs : List Entity) :
    (buildingsTick bs).1 = sweepBuildings bs := rfl

lemma buildingsTick_snd (bs : List Entity) :
    (buildingsTick bs).2 = gameOverFires (sweepBuildings bs) := rfl

/-! ### C6 -/

/-- C6 (code bug): the grid snap of `createEntity` never fires.  The guard
`type in [CONSTRUCTION_YARD, ...]` uses JavaScript's `in` operator, which
tests the array's property keys ("0".."4" and "length") rather than its
values, so it is false for every entity type; at the failing input the
construction yard keeps its raw position (1000, 1000), while the snap the
claim (and the adjacent source comment) describes would center it at
(1060, 1060). -/
theorem C6_snap_code_eval :
    (∀ t : EntityType, jsInArray (enumValue t) buildingSnapList.length = false) ∧
    (createEntity 1000 1000 EntityType.CONSTRUCTION_YARD Team.player).pos = ⟨1000, 1000⟩ ∧
    specSnapPos 1000 1000 EntityType.CONSTRUCTION_YARD = ⟨1060, 1060⟩ ∧
    (⟨1000, 1000⟩ : Vec) ≠ (⟨1060, 1060⟩ : Vec) := by
  refine ⟨fun t => by cases t <;> rfl, ?_, ?_, ?_⟩
  · have hsnap : jsInArray (enumValue EntityType.CONSTRUCTION_YARD)
        buildingSnapList.length = false := rfl
    simp [createEntity, hsnap]
  · simp only [specSnapPos, DEFINITIONS, TILE_SIZE, Vec.mk.injEq]
    norm_num
  · simp only [ne_eq, Vec.mk.injEq, not_and]
    intro h
    norm_num at h

/-! ### C1 -/

/-- The initial player HQ of `initLevel`, marked dead as combat does when
hit points drop to zero or below. -/
def deadHQ : Entity :=
  { createEntity 1000 1000 EntityType.CONSTRUCTION_YARD Team.player with dead := true }

/-- C1 counterexample: with the construction yard marked dead, the
mission-failed signal fires on the tick whose sweep removes it AND fires
again on the immediately following tick — the code re-invokes `onGameOver`
on every tick on which no live player construction yard exists, so it does
not fire exactly once. -/
theorem C1_counterexample :
    (buildingsTick [deadHQ]).2 = true ∧
    (buildingsTick (buildingsTick [deadHQ]).1).2 = true := by
  constructor <;> rfl

/-- C1 amended: the signal never fires on a tick on which a live player
construction yard survives the sweep, and it fires on the tick whose sweep
removes the last one — but, there being no single-fire guard, it fires again
on every subsequent tick (the tick never adds buildings, so the yard stays
absent). -/
theorem C1_gameOver_signal (bs : List Entity) :
    ((buildingsTick bs).2 = true ↔
      ∀ b ∈ bs, b.dead = false → isPlayerHQ b = false) ∧
    ((buildingsTick bs).2 = true → (buildingsTick (buildingsTick bs).1).2 = true) := by
  have charact : ∀ cs : List Entity, (buildingsTick cs).2 = true ↔
      ∀ b ∈ cs, b.dead = false → isPlayerHQ b = false := by
    intro cs
    rw [buildingsTick_snd, gameOverFires_iff]
    constructor
    · intro h b hb hdead
      exact h b (List.mem_filter.mpr ⟨hb, by simp [hdead]⟩)
    · intro h b hb
      rcases List.mem_filter.mp hb with ⟨hmem, hlive⟩
      exact h b hmem (by simpa using hlive)
  refine ⟨charact bs, fun h => ?_⟩
  rw [charact]
  intro b hb hdead
  rw [charact bs] at h
  exact h b (List.mem_filter.mp hb).1 hdead

/-- Witness for `C1_gameOver_signal` at the empty collection: with no
buildings at all the signal fires, and fires again on the next tick. -/
theorem C1_gameOver_signal_witness :
    (buildingsTick ([] : List Entity)).2 = true ∧
    (buildingsTick (buildingsTick ([] : List Entity)).1).2 = true := by
  have h1 : (buildingsTick ([] : List Entity)).2 = true :=
    (C1_gameOver_signal []).1.mpr (by intro b hb; cases hb)
  exact ⟨h1, (C1_gameOver_signal []).2 h1⟩

/-! ### C2 -/

/-- C2 counterexample: a barracks queue at progress 1984 of total 2000
completes on this tick (1984 + 16 ≥ 2000) while no building at all exists;
the claim says the unit is still spawned, but the code spawns nothing — the
result carries an empty spawn list (and the cleared slot). -/
theorem C2_counterexample :
    (2000 : Int) ≤ 1984 + 16 ∧
    productionStep 0 [] QueueKey.barracks (some ⟨EntityType.INFANTRY, 1984, 2000⟩) =
      (none, []) := by
  constructor
  · decide
  · rfl

/-- C2 amended: when an occupied queue's progress reaches or exceeds its
total on a tick with non-negative power and no live building of the matching
class exists for the player, NO unit is spawned (the order is silently
dropped) and the queue slot is cleared. -/
theorem C2_completion_without_spawner (power : Int) (bs : List Entity)
    (key : QueueKey) (q : Queue)
    (hpow : 0 ≤ power) (hdone : q.total ≤ q.progress + 16)
    (hnone : bs.find? (fun b => b.type == spawnerType key && b.team == Team.player)
      = none) :
    productionStep power bs key (some q) = (none, []) := by
  unfold productionStep
  rw [if_neg (by omega : ¬ power < 0)]
  simp only [if_pos hdone, hnone]

/-- Witness for `C2_completion_without_spawner`: a factory queue for a tank
at progress 4984 of 5000 with no buildings present. -/
theorem C2_completion_without_spawner_witness :
    (0 : Int) ≤ 0 ∧ (5000 : Int) ≤ 4984 + 16 ∧
    productionStep 0 [] QueueKey.factory (some ⟨EntityType.TANK, 4984, 5000⟩) =
      (none, []) :=
  ⟨le_refl 0, by decide,
    C2_completion_without_spawner 0 [] QueueKey.factory ⟨EntityType.TANK, 4984, 5000⟩
      (le_refl 0) (by decide) rfl⟩

/-! ### C3 -/

/-- An engine state with no funds and power-plant placement armed. -/
def c3State : EngineState :=
  { credits := 0, power := 0, buildings := [], units := [],
    buildMode := some EntityType.POWER_PLANT }

/-- C3 counterexample: two concrete rejections contradict the claim.  A
placement attempt with insufficient funds (0 < cost 300) is rejected — the
state comes back unchanged — but NO notification is produced
(`tryPlaceBuilding` returns silently from its funds check).  And an enqueue
with 50 credits against an occupied barracks slot is rejected with
"Insufficient Funds", not the slot-occupied cause: `queueUnit` checks funds
before occupancy, so an occupied slot does not always fail with the
slot-occupied cause. -/
theorem C3_counterexample :
    (c3State.credits < (DEFINITIONS EntityType.POWER_PLANT).cost ∧
      tryPlaceBuilding c3State ⟨0, 0⟩ = (c3State, none)) ∧
    (50 : Int) < (DEFINITIONS EntityType.INFANTRY).cost ∧
    queueUnit 50 (some ⟨EntityType.INFANTRY, 0, 2000⟩) true EntityType.INFANTRY =
      (50, some ⟨EntityType.INFANTRY, 0, 2000⟩, some "Insufficient Funds") := by
  refine ⟨⟨?_, ?_⟩, ?_, ?_⟩
  · decide
  · rfl
  · decide
  · rfl

/-- C3 amended: every rejected command leaves all state unchanged, and every
rejected production enqueue produces a notification with the cause of its
first failing check — the funds check precedes the occupancy check, so
enqueue on an occupied slot fails with "Production Busy" (deducting no
funds) exactly when funds suffice, and with "Insufficient Funds" (likewise
deducting nothing and leaving the slot intact) otherwise.  Of the two
placement rejections only the build-site collision produces a notification;
a placement rejected for insufficient funds returns silently with no
notification. -/
theorem C3_rejections :
    (∀ (credits : Int) (q : Option Queue) (hasB : Bool) (t : EntityType),
      credits < (DEFINITIONS t).cost →
        queueUnit credits q hasB t = (credits, q, some "Insufficient Funds")) ∧
    (∀ (credits : Int) (qq : Queue) (hasB : Bool) (t : EntityType),
      (DEFINITIONS t).cost ≤ credits →
        queueUnit credits (some qq) hasB t = (credits, some qq, some "Production Busy")) ∧
    (∀ (credits : Int) (qq : Queue) (hasB : Bool) (t : EntityType),
      credits < (DEFINITIONS t).cost →
        queueUnit credits (some qq) hasB t =
          (credits, some qq, some "Insufficient Funds")) ∧
    (∀ (credits : Int) (t : EntityType),
      (DEFINITIONS t).cost ≤ credits →
        queueUnit credits none false t = (credits, none, some "Building Required")) ∧
    (∀ (s : EngineState) (m : Vec) (mode : EntityType),
      s.buildMode = some mode → s.credits < (DEFINITIONS mode).cost →
        tryPlaceBuilding s m = (s, none)) ∧
    (∀ (s : EngineState) (m : Vec) (mode : EntityType),
      s.buildMode = some mode → (DEFINITIONS mode).cost ≤ s.credits →
      (s.buildings.any (fun b => rectOverlap
          ⟨(⌊m.x / TILE_SIZE⌋ : Rat) * TILE_SIZE, (⌊m.y / TILE_SIZE⌋ : Rat) * TILE_SIZE,
           (DEFINITIONS mode).w * TILE_SIZE, (DEFINITIONS mode).h * TILE_SIZE⟩
          (buildingRect b))) = true →
        tryPlaceBuilding s m = (s, some "Cannot build here!")) := by
  refine ⟨?_, ?_, ?_, ?_, ?_, ?_⟩
  · intro credits q hasB t h
    unfold queueUnit
    rw [if_pos h]
  · intro credits qq hasB t h
    unfold queueUnit
    rw [if_neg (by omega : ¬ credits < (DEFINITIONS t).cost)]
    simp
  · intro credits qq hasB t h
    unfold queueUnit
    rw [if_pos h]
  · intro credits t h
    unfold queueUnit
    rw [if_neg (by omega : ¬ credits < (DEFINITIONS t).cost)]
    simp
  · intro s m mode hmode h
    unfold tryPlaceBuilding
    rw [hmode]
    simp only [if_pos h]
  · intro s m mode hmode hfunds hcoll
    unfold tryPlaceBuilding
    rw [hmode]
    simp only [if_neg (by omega : ¬ s.credits < (DEFINITIONS mode).cost), hcoll, if_pos]

/-- Witness for `C3_rejections`: each rejection case at concrete inputs —
enqueue a rifleman with 50 credits (insufficient), with an occupied barracks
slot at ample funds (busy), with an occupied slot AND only 50 credits (the
funds cause wins), with no barracks; place with 0 credits (silent); the
collision case is covered by the general conjunct at the armed state. -/
theorem C3_rejections_witness :
    queueUnit 50 none true EntityType.INFANTRY = (50, none, some "Insufficient Funds") ∧
    queueUnit 2500 (some ⟨EntityType.INFANTRY, 0, 2000⟩) true EntityType.INFANTRY =
      (2500, some ⟨EntityType.INFANTRY, 0, 2000⟩, some "Production Busy") ∧
    queueUnit 50 (some ⟨EntityType.TANK, 16, 5000⟩) true EntityType.TANK =
      (50, some ⟨EntityType.TANK, 16, 5000⟩, some "Insufficient Funds") ∧
    queueUnit 2500 none false EntityType.INFANTRY = (2500, none, some "Building Required") ∧
    tryPlaceBuilding c3State ⟨40, 40⟩ = (c3State, none) := by
  refine ⟨?_, ?_, ?_, ?_, ?_⟩
  · exact (C3_rejections).1 50 none true EntityType.INFANTRY (by decide)
  · exact (C3_rejections).2.1 2500 ⟨EntityType.INFANTRY, 0, 2000⟩ true EntityType.INFANTRY
      (by decide)
  · exact (C3_rejections).2.2.1 50 ⟨EntityType.TANK, 16, 5000⟩ true EntityType.TANK
      (by decide)
  · exact (C3_rejections).2.2.2.1 2500 EntityType.INFANTRY (by decide)
  · exact (C3_rejections).2.2.2.2.1 c3State ⟨40, 40⟩ EntityType.POWER_PLANT rfl (by decide)

/-! ### C4 -/

/-- A selected player harvester at the origin. -/
def c4Harvester : Entity :=
  { createEntity 0 0 EntityType.HARVESTER Team.player with selected := true }

/-- A one-patch ore field and the engine context of the tick after the
order. -/
def c4Ctx : HarvCtx :=
  { power := 0, tick := 1, buildings := [], orePatches := [⟨⟨500, 0⟩, 1000⟩] }

/-- C4 counterexample: the move order to (200, 200) does force the harvester
to `idle` with the ordered destination, but `updateHarvester` runs
unconditionally on the very next tick and — an ore patch existing — retakes
both: the destination becomes the first ore patch (500, 0) and the state
`moving_to_ore`, so the harvester does NOT stay out of its harvest cycle
until the order completes. -/
theorem C4_counterexample :
    (issueCommandUnit none ⟨200, 200⟩ c4Harvester none).1.targetPos = some ⟨200, 200⟩ ∧
    (issueCommandUnit none ⟨200, 200⟩ c4Harvester none).1.harvestState = HarvestState.idle ∧
    (updateHarvester c4Ctx 2500 (issueCommandUnit none ⟨200, 200⟩ c4Harvester none).1).1.targetPos
      = some ⟨500, 0⟩ ∧
    (updateHarvester c4Ctx 2500 (issueCommandUnit none ⟨200, 200⟩ c4Harvester none).1).1.harvestState
      = HarvestState.moving_to_ore := by
  have hcmd : (issueCommandUnit none ⟨200, 200⟩ c4Harvester none).1 =
      { c4Harvester with targetPos := some ⟨200, 200⟩, harvestState := HarvestState.idle } := rfl
  have hsnapH : jsInArray (enumValue EntityType.HARVESTER) buildingSnapList.length
      = false := rfl
  refine ⟨rfl, rfl, ?_, ?_⟩ <;>
  · rw [hcmd]
    unfold updateHarvester
    norm_num [c4Harvester, c4Ctx, createEntity, distLt, distSq, DEFINITIONS, hsnapH]

/-- C4 amended: a move order does force the harvester's state to `idle` and
override its destination with the ordered point at issue time — but the
harvest cycle is not suspended: on the very next tick `updateHarvester`
retakes the destination and state whenever any ore patch exists (or cargo is
at capacity); the order only persists while the ore-patch list is empty and
cargo is below capacity. -/
theorem C4_harvester_move_order :
    (∀ (point : Vec) (u : Entity) (uTarget : Option Entity),
      u.selected = true → u.team = Team.player → u.type = EntityType.HARVESTER →
        (issueCommandUnit none point u uTarget).1.harvestState = HarvestState.idle ∧
        (issueCommandUnit none point u uTarget).1.targetPos = some point ∧
        (issueCommandUnit none point u uTarget).2 = none) ∧
    (∀ (ctx : HarvCtx) (credits : Int) (u : Entity),
      ctx.orePatches = [] → u.cargo < 500 → u.harvestState = HarvestState.idle →
        (updateHarvester ctx credits u).1.targetPos = u.targetPos ∧
        (updateHarvester ctx credits u).1.harvestState = u.harvestState) ∧
    (∀ (ctx : HarvCtx) (credits : Int) (u : Entity) (ore : OrePatch),
      ctx.orePatches.head? = some ore → u.cargo < 500 →
      u.harvestState = HarvestState.idle →
        (updateHarvester ctx credits u).1.targetPos =
          (if distLt u.pos ore.pos 30 then none else some ore.pos) ∧
        (updateHarvester ctx credits u).1.harvestState =
          (if distLt u.pos ore.pos 30 then HarvestState.harvesting
           else HarvestState.moving_to_ore)) := by
  refine ⟨?_, ?_, ?_⟩
  · intro point u uTarget hsel hteam htype
    unfold issueCommandUnit
    rw [hsel, hteam, htype]
    simp
  · intro ctx credits u hore hcargo hidle
    unfold updateHarvester
    rw [if_neg (by simp [DEFINITIONS]; omega : ¬ (DEFINITIONS EntityType.HARVESTER).capacity.getD 500 ≤ u.cargo)]
    rw [if_pos (by rw [hidle]; rfl :
      (u.harvestState == HarvestState.idle || u.harvestState == HarvestState.moving_to_ore) = true)]
    rw [hore]
    simp
  · intro ctx credits u ore hore hcargo hidle
    unfold updateHarvester
    rw [if_neg (by simp [DEFINITIONS]; omega : ¬ (DEFINITIONS EntityType.HARVESTER).capacity.getD 500 ≤ u.cargo)]
    rw [if_pos (by rw [hidle]; rfl :
      (u.harvestState == HarvestState.idle || u.harvestState == HarvestState.moving_to_ore) = true)]
    rw [hore]
    dsimp only
    split <;> simp_all

/-- Witness for `C4_harvester_move_order`: a fresh selected harvester ordered
to (200, 200); with no ore patches (and empty cargo) the order survives the
next tick; with the one-patch field the cycle retakes it. -/
theorem C4_harvester_move_order_witness :
    (issueCommandUnit none ⟨200, 200⟩ c4Harvester none).1.harvestState = HarvestState.idle ∧
    (issueCommandUnit none ⟨200, 200⟩ c4Harvester none).1.targetPos = some ⟨200, 200⟩ ∧
    (updateHarvester ⟨0, 1, [], []⟩ 2500 c4Harvester).1.targetPos = c4Harvester.targetPos ∧
    (updateHarvester c4Ctx 2500 c4Harvester).1.harvestState =
      (if distLt c4Harvester.pos (⟨500, 0⟩ : Vec) 30 then HarvestState.harvesting
       else HarvestState.moving_to_ore) := by
  refine ⟨((C4_harvester_move_order).1 ⟨200, 200⟩ c4Harvester none rfl rfl rfl).1,
    ((C4_harvester_move_order).1 ⟨200, 200⟩ c4Harvester none rfl rfl rfl).2.1,
    ((C4_harvester_move_order).2.1 ⟨0, 1, [], []⟩ 2500 c4Harvester rfl (by decide) rfl).1,
    ((C4_harvester_move_order).2.2 c4Ctx 2500 c4Harvester ⟨⟨500, 0⟩, 1000⟩ rfl (by decide) rfl).2⟩

/-! ### C5 -/

/-- C5: on a tick with negative power balance, no production queue advances —
the slot comes back exactly as it was, frozen, not reset — and no cannon
fires; the harvester update, the mobile combat block and the movement block
are invariant under the power balance (the first reads the engine context
with the power field replaced arbitrarily; the latter two carry the
in-scope power value as an argument their bodies never read). -/
theorem C5_power_gate :
    (∀ (power : Int) (bs : List Entity) (key : QueueKey) (q : Option Queue),
      power < 0 → productionStep power bs key q = (q, [])) ∧
    (∀ (power : Int) (units bs : List Entity) (b : Entity),
      power < 0 → cannonStep power units bs b = (b, none)) ∧
    (∀ (p : Int) (ctx : HarvCtx) (credits : Int) (u : Entity),
      updateHarvester { ctx with power := p } credits u = updateHarvester ctx credits u) ∧
    (∀ (p p' : Int) (u : Entity) (uTarget : Option Entity),
      unitCombat p u uTarget = unitCombat p' u uTarget) ∧
    (∀ (p p' : Int) (pos : RVec) (speed : Real) (others : List RVec) (mt : Option RVec),
      unitMove p pos speed others mt = unitMove p' pos speed others mt) := by
  refine ⟨?_, ?_, ?_, fun _ _ _ _ => rfl, fun _ _ _ _ _ _ => rfl⟩
  · intro power bs key q h
    unfold productionStep
    rw [if_pos h]
  · intro power units bs b h
    unfold cannonStep
    by_cases hb : (b.team == Team.player && b.type == EntityType.CANNON) = true
    · rw [if_pos hb, if_pos h]
    · rw [if_neg hb]
  · intro p ctx credits u
    rfl

/-- Witness for `C5_power_gate` at power −1: an occupied barracks queue is
returned untouched and a ready-to-fire player cannon fires nothing. -/
theorem C5_power_gate_witness :
    productionStep (-1) [] QueueKey.barracks (some ⟨EntityType.INFANTRY, 100, 2000⟩) =
      (some ⟨EntityType.INFANTRY, 100, 2000⟩, []) ∧
    cannonStep (-1) [] [] (createEntity 0 0 EntityType.CANNON Team.player) =
      (createEntity 0 0 EntityType.CANNON Team.player, none) :=
  ⟨(C5_power_gate).1 (-1) [] QueueKey.barracks (some ⟨EntityType.INFANTRY, 100, 2000⟩)
      (by decide),
   (C5_power_gate).2.1 (-1) [] [] (createEntity 0 0 EntityType.CANNON Team.player)
      (by decide)⟩

/-! ### C7 -/

lemma fireRate_nonneg (t : EntityType) : 0 ≤ (DEFINITIONS t).fireRate.getD 0 := by
  cases t <;> decide

lemma damage_nonneg (t : EntityType) : 0 ≤ (DEFINITIONS t).damage.getD 0 := by
  cases t <;> decide

lemma cooldownDecay_nonneg (u : Entity) (h : 0 ≤ u.cooldown) :
    0 ≤ (cooldownDecay u).cooldown := by
  unfold cooldownDecay
  split
  · simp
    omega
  · exact h

/-- C7: entities are created with cooldown 0 and full hit points; every
catalog fire rate and damage value is non-negative; the cannon step and the
unit combat step (the only writers of the cooldown counter) keep the
cooldown non-negative; projectile impact (the only writer of hit points)
only lowers hit points, so they stay at or below the (unchanged) maximum,
and it leaves the cooldown untouched. -/
theorem C7_cooldown_hp_invariants :
    (∀ (x y : Rat) (t : EntityType) (team : Team),
      (createEntity x y t team).cooldown = 0 ∧
      (createEntity x y t team).hp = (createEntity x y t team).maxHp) ∧
    (∀ t : EntityType,
      0 ≤ (DEFINITIONS t).fireRate.getD 0 ∧ 0 ≤ (DEFINITIONS t).damage.getD 0) ∧
    (∀ (power : Int) (units bs : List Entity) (b : Entity),
      0 ≤ b.cooldown → 0 ≤ (cannonStep power units bs b).1.cooldown) ∧
    (∀ (power : Int) (u : Entity) (uTarget : Option Entity),
      0 ≤ u.cooldown → 0 ≤ (unitCombat power u uTarget).1.cooldown) ∧
    (∀ (damage : Int) (t : Entity),
      0 ≤ damage → t.hp ≤ t.maxHp →
        (applyImpact damage t).hp ≤ (applyImpact damage t).maxHp ∧
        (applyImpact damage t).cooldown = t.cooldown) := by
  refine ⟨fun x y t team => ⟨rfl, rfl⟩, fun t => ⟨fireRate_nonneg t, damage_nonneg t⟩,
    ?_, ?_, ?_⟩
  · intro power units bs b h
    unfold cannonStep
    split
    · split
      · simpa using h
      · split
        · simp
          omega
        · dsimp only
          split
          · simp [fireRate_nonneg]
          · simpa using h
    · simpa using h
  · intro power u uTarget h
    unfold unitCombat
    dsimp only
    apply cooldownDecay_nonneg
    split
    · simpa using h
    · split
      · simpa using h
      · split
        · split
          · simp [fireRate_nonneg]
          · simpa using h
        · simpa using h
  · intro damage t hdmg hhp
    unfold applyImpact
    dsimp only
    constructor
    · split <;> simp <;> omega
    · split <;> rfl

/-- Witness for `C7_cooldown_hp_invariants`: a fresh cannon at cooldown 0
stays non-negative through a cannon step with no enemies; a fresh tank stays
non-negative through an idle combat step; a 40-damage impact on a fresh
800-hit-point cannon keeps hit points at or below the maximum. -/
theorem C7_cooldown_hp_invariants_witness :
    0 ≤ (cannonStep 0 [] [] (createEntity 0 0 EntityType.CANNON Team.player)).1.cooldown ∧
    0 ≤ (unitCombat 0 (createEntity 0 0 EntityType.TANK Team.player) none).1.cooldown ∧
    (applyImpact 40 (createEntity 0 0 EntityType.CANNON Team.player)).hp ≤
      (applyImpact 40 (createEntity 0 0 EntityType.CANNON Team.player)).maxHp :=
  ⟨(C7_cooldown_hp_invariants).2.2.1 0 [] [] (createEntity 0 0 EntityType.CANNON Team.player)
      (le_refl 0),
   (C7_cooldown_hp_invariants).2.2.2.1 0 (createEntity 0 0 EntityType.TANK Team.player) none
      (le_refl 0),
   ((C7_cooldown_hp_invariants).2.2.2.2 40 (createEntity 0 0 EntityType.CANNON Team.player)
      (by decide) (le_refl _)).1⟩

/-! ### C9 -/

lemma harvesterCap_eq : (DEFINITIONS EntityType.HARVESTER).capacity.getD 500 = (500 : Int) :=
  rfl

/-- Case analysis of one `updateHarvester` call: either it deposits (cargo
zeroed, credits grown by the cargo), or it leaves cargo and credits alone,
or it extracts (cargo grown by 10, and only from below capacity). -/
lemma updateHarvester_cases (ctx : HarvCtx) (credits : Int) (u : Entity) :
    ((updateHarvester ctx credits u).1.cargo = 0 ∧
      (updateHarvester ctx credits u).2.1 = credits + u.cargo) ∨
    ((updateHarvester ctx credits u).1.cargo = u.cargo ∧
      (updateHarvester ctx credits u).2.1 = credits) ∨
    ((updateHarvester ctx credits u).1.cargo = u.cargo + 10 ∧ u.cargo < 500 ∧
      (updateHarvester ctx credits u).2.1 = credits) := by
  unfold updateHarvester
  rw [harvesterCap_eq]
  by_cases hc : (500 : Int) ≤ u.cargo
  · rw [if_pos hc]
    cases hfind : ctx.buildings.find? isPlayerRefinery with
    | none => right; left; exact ⟨rfl, rfl⟩
    | some r =>
      dsimp only
      by_cases hd : distLt u.pos r.pos 60 = true
      · rw [if_pos hd]
        left
        exact ⟨rfl, rfl⟩
      · rw [if_neg hd]
        right; left
        exact ⟨rfl, rfl⟩
  · rw [if_neg hc]
    split
    · cases hh : ctx.orePatches.head? with
      | none => right; left; exact ⟨rfl, rfl⟩
      | some ore =>
        dsimp only
        split
        · right; left; exact ⟨rfl, rfl⟩
        · right; left; exact ⟨rfl, rfl⟩
    · split
      · split
        · dsimp only
          split
          · right; right; exact ⟨rfl, by omega, rfl⟩
          · right; right; exact ⟨rfl, by omega, rfl⟩
        · right; left; exact ⟨rfl, rfl⟩
      · right; left; exact ⟨rfl, rfl⟩

/-- C9: a harvester starts with zero cargo; `updateHarvester` — the only
writer of cargo — preserves "cargo is a non-negative multiple of 10 at most
500" (extraction adds 10 only while cargo is below the 500 capacity, so it
lands on exactly 500); and on the deposit tick (cargo at capacity, a player
refinery within range 60) the owner is credited exactly 500 — the full
capacity — while cargo becomes exactly 0 and the state returns to `idle`.
Hence every completed round trip deposits exactly the capacity. -/
theorem C9_harvester_roundtrip :
    (∀ (x y : Rat) (t : EntityType) (team : Team), (createEntity x y t team).cargo = 0) ∧
    (∀ (ctx : HarvCtx) (credits : Int) (u : Entity),
      0 ≤ u.cargo → u.cargo ≤ 500 → 10 ∣ u.cargo →
        0 ≤ (updateHarvester ctx credits u).1.cargo ∧
        (updateHarvester ctx credits u).1.cargo ≤ 500 ∧
        10 ∣ (updateHarvester ctx credits u).1.cargo) ∧
    (∀ (ctx : HarvCtx) (credits : Int) (u : Entity) (r : Entity),
      u.cargo ≤ 500 → 500 ≤ u.cargo →
      ctx.buildings.find? isPlayerRefinery = some r →
      distLt u.pos r.pos 60 = true →
        (updateHarvester ctx credits u).2.1 = credits + 500 ∧
        (updateHarvester ctx credits u).1.cargo = 0 ∧
        (updateHarvester ctx credits u).1.harvestState = HarvestState.idle) := by
  refine ⟨fun x y t team => rfl, ?_, ?_⟩
  · intro ctx credits u h0 h500 hdvd
    rcases updateHarvester_cases ctx credits u with ⟨hcar, _⟩ | ⟨hcar, _⟩ | ⟨hcar, hlt, _⟩ <;>
      rw [hcar] <;> omega
  · intro ctx credits u r h500 h500le hfind hdist
    have hcargo : u.cargo = 500 := le_antisymm h500 h500le
    unfold updateHarvester
    rw [harvesterCap_eq, if_pos h500le, hfind]
    dsimp only
    rw [if_pos hdist]
    refine ⟨by dsimp only; omega, rfl, rfl⟩

/-- A player refinery and a full harvester parked on it, for the deposit
witness. -/
def c9Refinery : Entity := createEntity 0 0 EntityType.REFINERY Team.player

/-- Witness for `C9_harvester_roundtrip`: a full (cargo 500) harvester at a
player refinery deposits exactly 500 credits and ends empty and idle; the
invariant survives one update of a fresh harvester. -/
theorem C9_harvester_roundtrip_witness :
    (createEntity 0 0 EntityType.HARVESTER Team.player).cargo = 0 ∧
    0 ≤ (updateHarvester c4Ctx 2500 c4Harvester).1.cargo ∧
    (updateHarvester ⟨0, 7, [c9Refinery], []⟩ 2500
        { c4Harvester with cargo := 500 }).2.1 = 2500 + 500 ∧
    (updateHarvester ⟨0, 7, [c9Refinery], []⟩ 2500
        { c4Harvester with cargo := 500 }).1.cargo = 0 := by
  have hfind : (⟨0, 7, [c9Refinery], []⟩ : HarvCtx).buildings.find? isPlayerRefinery
      = some c9Refinery := rfl
  have hdist : distLt ({ c4Harvester with cargo := 500 } : Entity).pos c9Refinery.pos 60
      = true := by
    have hsnapR : jsInArray (enumValue EntityType.REFINERY) buildingSnapList.length
        = false := rfl
    have hsnapH : jsInArray (enumValue EntityType.HARVESTER) buildingSnapList.length
        = false := rfl
    simp [c4Harvester, c9Refinery, createEntity, hsnapR, hsnapH, distLt, distSq]
  refine ⟨(C9_harvester_roundtrip).1 0 0 EntityType.HARVESTER Team.player,
    ((C9_harvester_roundtrip).2.1 c4Ctx 2500 c4Harvester (by decide) (by decide)
      (by decide)).1,
    ((C9_harvester_roundtrip).2.2 ⟨0, 7, [c9Refinery], []⟩ 2500
      { c4Harvester with cargo := 500 } c9Refinery (by decide) (by decide) hfind hdist).1,
    ((C9_harvester_roundtrip).2.2 ⟨0, 7, [c9Refinery], []⟩ 2500
      { c4Harvester with cargo := 500 } c9Refinery (by decide) (by decide) hfind hdist).2.1⟩

/-! ### C10 -/

/-- Line 12 of GameEngine.ts: `credits: number = 2500`. -/
def initialCredits : Int := 2500

/-- C10: credits are never negative — the starting balance is non-negative,
and each of the three mutations preserves non-negativity: `tryPlaceBuilding`
deducts only behind its funds check, `queueUnit` deducts only behind its
funds check, and the harvester deposit adds the (non-negative) cargo. -/
theorem C10_credits_nonneg :
    0 ≤ initialCredits ∧
    (∀ (s : EngineState) (m : Vec),
      0 ≤ s.credits → 0 ≤ (tryPlaceBuilding s m).1.credits) ∧
    (∀ (credits : Int) (q : Option Queue) (hasB : Bool) (t : EntityType),
      0 ≤ credits → 0 ≤ (queueUnit credits q hasB t).1) ∧
    (∀ (ctx : HarvCtx) (credits : Int) (u : Entity),
      0 ≤ credits → 0 ≤ u.cargo → 0 ≤ (updateHarvester ctx credits u).2.1) := by
  refine ⟨by decide, ?_, ?_, ?_⟩
  · intro s m h
    unfold tryPlaceBuilding
    cases hbm : s.buildMode with
    | none => exact h
    | some mode =>
      dsimp only
      by_cases hfunds : s.credits < (DEFINITIONS mode).cost
      · rw [if_pos hfunds]
        exact h
      · rw [if_neg hfunds]
        split
        · exact h
        · dsimp only
          omega
  · intro credits q hasB t h
    unfold queueUnit
    by_cases h1 : credits < (DEFINITIONS t).cost
    · rw [if_pos h1]
      exact h
    · rw [if_neg h1]
      split
      · exact h
      · split
        · exact h
        · dsimp only
          omega
  · intro ctx credits u h hc
    rcases updateHarvester_cases ctx credits u with ⟨_, hcr⟩ | ⟨_, hcr⟩ | ⟨_, _, hcr⟩ <;>
      rw [hcr] <;> omega

/-- Witness for `C10_credits_nonneg`: placement from the zero-credit armed
state, a rifleman enqueue at 2500 credits, and a deposit by an empty
harvester all keep credits non-negative. -/
theorem C10_credits_nonneg_witness :
    0 ≤ (tryPlaceBuilding c3State ⟨0, 0⟩).1.credits ∧
    0 ≤ (queueUnit 2500 none true EntityType.INFANTRY).1 ∧
    0 ≤ (updateHarvester c4Ctx 2500 c4Harvester).2.1 :=
  ⟨(C10_credits_nonneg).2.1 c3State ⟨0, 0⟩ (by decide),
   (C10_credits_nonneg).2.2.1 2500 none true EntityType.INFANTRY (by decide),
   (C10_credits_nonneg).2.2.2 c4Ctx 2500 c4Harvester (by decide) (by decide)⟩

/-! ### C8 -/

lemma rdist_nonneg (a b : RVec) : 0 ≤ rdist a b :=
  Real.sqrt_nonneg _

lemma rdist_self (a : RVec) : rdist a a = 0 := by
  unfold rdist
  simp

/-- The coordinates of `rdist` as a point of the Euclidean plane, to import
the triangle inequality. -/
noncomputable def toE (v : RVec) : EuclideanSpace Real (Fin 2) := ![v.x, v.y]

lemma rdist_eq_dist (a b : RVec) : rdist a b = dist (toE a) (toE b) := by
  rw [EuclideanSpace.dist_eq]
  unfold rdist toE
  congr 1
  rw [Fin.sum_univ_two]
  simp [Real.dist_eq, sq_abs]

lemma rdist_triangle (a b c : RVec) : rdist a c ≤ rdist a b + rdist b c := by
  rw [rdist_eq_dist, rdist_eq_dist, rdist_eq_dist]
  exact dist_triangle _ _ _

/-- The square root computed inside `projTick` is the distance between the
projectile and the target. -/
lemma projTick_sqrt (p t : RVec) :
    Real.sqrt ((t.x - p.x) ^ 2 + (t.y - p.y) ^ 2) = rdist p t := by
  unfold rdist
  congr 1
  ring

/-- A projectile at distance below the impact threshold resolves (is removed)
this tick, and only then. -/
lemma projTick_eq_none_iff (p t : RVec) : projTick p t = none ↔ rdist p t < 10 := by
  unfold projTick
  dsimp only
  rw [projTick_sqrt]
  by_cases h : rdist p t < 10
  · simp [h]
  · simp [h]

/-- A projectile at distance at least the impact threshold advances, and its
distance to the target position it advanced toward shrinks by exactly its
travel speed 10. -/
lemma projTick_far (p t : RVec) (h : 10 ≤ rdist p t) :
    ∃ p', projTick p t = some p' ∧ rdist p' t = rdist p t - 10 := by
  set d := rdist p t with hdef
  have hdpos : (0 : Real) < d := lt_of_lt_of_le (by norm_num) h
  have hne : d ≠ 0 := ne_of_gt hdpos
  have hSnn : (0 : Real) ≤ (t.x - p.x) ^ 2 + (t.y - p.y) ^ 2 := by positivity
  have hsq : (t.x - p.x) ^ 2 + (t.y - p.y) ^ 2 = d ^ 2 := by
    rw [← projTick_sqrt p t] at hdef
    rw [hdef, Real.sq_sqrt hSnn]
  refine ⟨⟨p.x + (t.x - p.x) / d * 10, p.y + (t.y - p.y) / d * 10⟩, ?_, ?_⟩
  · unfold projTick
    dsimp only
    rw [projTick_sqrt, if_neg (not_lt.mpr h)]
  · have key : (p.x + (t.x - p.x) / d * 10 - t.x) ^ 2 + (p.y + (t.y - p.y) / d * 10 - t.y) ^ 2
        = (d - 10) ^ 2 := by
      have e1 : p.x + (t.x - p.x) / d * 10 - t.x = (t.x - p.x) * ((10 - d) / d) := by
        field_simp
        ring
      have e2 : p.y + (t.y - p.y) / d * 10 - t.y = (t.y - p.y) * ((10 - d) / d) := by
        field_simp
        ring
      rw [e1, e2]
      field_simp
      linear_combination (10 - d) ^ 2 * hsq
    unfold rdist
    dsimp only
    rw [key, Real.sqrt_sq (by linarith : (0 : Real) ≤ d - 10)]

/-- While the projectile survives, its distance to the target is bounded by
the initial distance minus `(10 - s)` per elapsed tick, provided the target
moves at most `s` per tick. -/
lemma projRun_dist_bound (tgt : Nat → RVec) (p0 : RVec) (s : Real)
    (hmove : ∀ n, rdist (tgt n) (tgt (n + 1)) ≤ s) :
    ∀ (n : Nat) (p : RVec), projRun tgt p0 n = some p →
      rdist p (tgt n) ≤ rdist p0 (tgt 0) - (10 - s) * n := by
  intro n
  induction n with
  | zero =>
    intro p hp
    rw [projRun] at hp
    injection hp with hpp
    subst hpp
    simp
  | succ k ih =>
    intro p hp
    rw [projRun] at hp
    cases hq : projRun tgt p0 k with
    | none =>
      rw [hq] at hp
      cases hp
    | some q =>
      rw [hq] at hp
      dsimp only at hp
      have hfar : 10 ≤ rdist q (tgt (k + 1)) := by
        by_contra hlt
        push_neg at hlt
        rw [(projTick_eq_none_iff q (tgt (k + 1))).mpr hlt] at hp
        cases hp
      obtain ⟨p', hstep, hshrink⟩ := projTick_far q (tgt (k + 1)) hfar
      rw [hstep] at hp
      injection hp with hpp
      subst hpp
      have htri : rdist q (tgt (k + 1)) ≤ rdist q (tgt k) + rdist (tgt k) (tgt (k + 1)) :=
        rdist_triangle q (tgt k) (tgt (k + 1))
      have hk := ih q hq
      have hmk := hmove k
      rw [hshrink]
      push_cast
      linarith

/-- C8: under the claim's hypothesis that the target moves at most `s < 10`
per tick (10 being the projectile's fixed travel speed, which exceeds every
unit's catalog movement speed — first conjunct), the distance from a live
projectile to its target strictly decreases tick over tick until impact, and
the projectile impacts (is removed) within a bounded number of ticks: by any
tick `N` with `d0 < (10 - s) * N` it is gone. -/
theorem C8_projectile_convergence (tgt : Nat → RVec) (p0 : RVec) (s : Real)
    (hmove : ∀ n, rdist (tgt n) (tgt (n + 1)) ≤ s) (hs : s < 10) :
    (∀ t : EntityType, (DEFINITIONS t).speed.getD 0 < (10 : Rat)) ∧
    (∀ (n : Nat) (p p' : RVec), projRun tgt p0 n = some p →
      projRun tgt p0 (n + 1) = some p' →
      rdist p' (tgt (n + 1)) < rdist p (tgt n)) ∧
    (∀ N : Nat, rdist p0 (tgt 0) < (10 - s) * N → projRun tgt p0 N = none) := by
  refine ⟨fun t => by cases t <;> norm_num [DEFINITIONS], ?_, ?_⟩
  · intro n p p' hp hp'
    rw [projRun, hp] at hp'
    dsimp only at hp'
    have hfar : 10 ≤ rdist p (tgt (n + 1)) := by
      by_contra hlt
      push_neg at hlt
      rw [(projTick_eq_none_iff p (tgt (n + 1))).mpr hlt] at hp'
      cases hp'
    obtain ⟨p'', hstep, hshrink⟩ := projTick_far p (tgt (n + 1)) hfar
    rw [hstep] at hp'
    injection hp' with hpp
    subst hpp
    have htri : rdist p (tgt (n + 1)) ≤ rdist p (tgt n) + rdist (tgt n) (tgt (n + 1)) :=
      rdist_triangle p (tgt n) (tgt (n + 1))
    have hmn := hmove n
    rw [hshrink]
    linarith
  · intro N hN
    cases hq : projRun tgt p0 N with
    | none => rfl
    | some q =>
      have hb := projRun_dist_bound tgt p0 s hmove N q hq
      have hnn := rdist_nonneg q (tgt N)
      linarith

/-- The stationary target of the C8 witness. -/
noncomputable def c8tgt : Nat → RVec := fun _ => ⟨0, 0⟩

/-- Witness for `C8_projectile_convergence`: a projectile spawned 20 away
from a stationary target (per-tick target movement 0 < 10) is gone by
tick 3, since 20 < (10 − 0) · 3. -/
theorem C8_projectile_convergence_witness :
    (∀ n : Nat, rdist (c8tgt n) (c8tgt (n + 1)) ≤ 0) ∧ (0 : Real) < 10 ∧
    projRun c8tgt ⟨20, 0⟩ 3 = none := by
  have h1 : ∀ n : Nat, rdist (c8tgt n) (c8tgt (n + 1)) ≤ 0 :=
    fun n => le_of_eq (rdist_self _)
  refine ⟨h1, by norm_num, ?_⟩
  apply (C8_projectile_convergence c8tgt ⟨20, 0⟩ 0 h1 (by norm_num)).2.2 3
  have h20 : rdist ⟨20, 0⟩ (c8tgt 0) = 20 := by
    unfold rdist c8tgt
    rw [show ((20 : Real) - 0) ^ 2 + ((0 : Real) - 0) ^ 2 = 20 ^ 2 by norm_num,
      Real.sqrt_sq (by norm_num : (0 : Real) ≤ 20)]
  rw [h20]
  norm_num

end RTS
